import Mathlib

/-!
Shallow embedding of the live-metadata resolution engine of
`danielhergil/calypso-land-back` (Node/Express).

Modelling conventions:
* JS objects returned by the adapters are modelled by the structure
  `LiveRecord`; a JS property that may be absent or `null` is an `Option`
  field (`none` = absent/null).
* ISO timestamp strings are modelled as epoch milliseconds (`Int`);
  view counts as `Nat` (YouTube counters are non-negative).
* `x || null` on a JS number is `jsNumOrNull` (`0` and `undefined` are
  falsy); on a JS string it is `jsStrOrNull` (the empty string is falsy).
* A function that can `throw` is modelled with `Except Unit` (the error
  payload is irrelevant to the claims checked here).
* External I/O (HTTP responses, subprocess output, the lazily
  initialised Innertube client) is modelled by explicit environment
  values passed to the functions that consume it.
-/

/-- `x || null` for a JS number: `0` and `undefined` are falsy. -/
def jsNumOrNull (x : Option Nat) : Option Nat :=
  match x with
  | some 0 => none
  | some n => some n
  | none => none

/-- `x || null` for a JS int-modelled value where `0` is falsy
(used for numeric epoch timestamps such as `data.timestamp`). -/
def jsIntTruthy (x : Option Int) : Bool :=
  match x with
  | some t => t ≠ 0
  | none => false

/-- `a || b` for JS strings modelled as `Option String`
(absent and empty strings are falsy). -/
def jsStrOr (a b : Option String) : Option String :=
  match a with
  | some s => if s = "" then b else some s
  | none => b

/-- `a || b` for ISO-timestamp strings modelled as epoch ms. -/
def jsTsOr (a b : Option Int) : Option Int :=
  match a with
  | some t => some t
  | none => b

/-- `a || b` for JS numbers modelled as `Option Nat` (`0` falsy). -/
def jsNumOr (a b : Option Nat) : Option Nat :=
  match a with
  | some 0 => b
  | some n => some n
  | none => b

/-- `s ? s.substring(0, 300) : null` (empty string is falsy). -/
def jsDescribe (d : Option String) : Option String :=
  match d with
  | some s => if s = "" then none else some (s.take 300)
  | none => none

/-- One thumbnail object `{ url, width, height }`. -/
structure Thumb where
  url : String
  width : Option Nat := none
  height : Option Nat := none
deriving Repr, DecidableEq

/-- The canonical live-metadata record, covering every JS property that
any normalization path of the repository writes.  Fields a given path
does not write stay at their default (`none` = absent). -/
structure LiveRecord where
  method : String := ""
  videoId : Option String := none
  channelId : Option String := none
  title : Option String := none
  channelName : Option String := none
  isLiveNow : Bool := false
  isLiveContent : Bool := false
  concurrentViewers : Option Nat := none
  viewerCountType : Option String := none
  thumbnails : List Thumb := []
  description : Option String := none
  actualStartTime : Option Int := none
  scheduledStartTime : Option Int := none
  endTime : Option Int := none
  duration : Option String := none
  liveDuration : Option String := none
  liveDurationSeconds : Option Int := none
  tags : Option (List String) := none
  category : Option String := none
  lengthSeconds : Option Int := none
  -- fields written only by the hybrid service overlay
  viewerCountSource : Option String := none
  apiError : Option String := none
  hybrid : Option Bool := none
  note : Option String := none
  quotaUsed : Option Nat := none
deriving Repr, DecidableEq

/-! ## CacheService (src/services/cacheService.js, backed by node-cache)

An entry is `(key, stored value, expiry time in ms)`.  The stored value
is `Option LiveRecord` because `set` can store JS `null` (node-cache
accepts it).  node-cache checks the TTL lazily on `get`: an expired
entry behaves as a miss. -/

abbrev CacheState := List (String × Option LiveRecord × Int)

/-- The raw node-cache lookup: `none` = miss/expired,
`some v` = stored value `v` (which may itself be a stored `null`). -/
def ncGet (st : CacheState) (now : Int) (key : String) :
    Option (Option LiveRecord) :=
  match st.find? (fun e => e.1 == key) with
  | some e => if now < e.2.2 then some e.2.1 else none
  | none => none

/-- `CacheService.get`: returns the stored value or `null` on a miss.
A stored `null` and a miss are indistinguishable to the caller — both
come back as `none`. -/
def csGet (st : CacheState) (now : Int) (key : String) :
    Option LiveRecord :=
  match ncGet st now key with
  | some v => v
  | none => none

/-- `CacheService.set key value ttl` (ttl in seconds, as in the source). -/
def csSet (st : CacheState) (now : Int) (key : String)
    (value : Option LiveRecord) (ttl : Int) : CacheState :=
  (key, value, now + ttl * 1000) :: st.filter (fun e => !(e.1 == key))

/-- `CacheService.generateKey`. -/
def csGenerateKey (ty identifier : String) : String :=
  "youtube:" ++ ty ++ ":" ++ identifier

/-- Outcome of one `CacheService.getOrSet` call: the value returned (or
the propagated error), the cache state afterwards, and how many times
the fetch function was invoked (0 or 1). -/
structure GetOrSetOutcome where
  result : Except Unit (Option LiveRecord)
  state : CacheState
  fetchCalls : Nat
deriving Repr

/-- `CacheService.getOrSet`: return the cached value if `get` gives
non-null; otherwise invoke the fetch function, store its value on
success, and rethrow its error on failure (storing nothing). -/
def getOrSet (st : CacheState) (now : Int) (key : String)
    (fetchResult : Except Unit (Option LiveRecord)) (ttl : Int) :
    GetOrSetOutcome :=
  match csGet st now key with
  | some v => ⟨.ok (some v), st, 0⟩
  | none =>
    match fetchResult with
    | .ok value => ⟨.ok value, csSet st now key value ttl, 1⟩
    | .error e => ⟨.error e, st, 1⟩

/-! ## Normalizers -/

deriving instance DecidableEq for Except

/-- `n.toString().padStart(2, '0')`. -/
def jsPad2 (n : Int) : String :=
  let s := toString n
  if s.length < 2 then "0" ++ s else s

/-- The HH:MM:SS / MM:SS live-duration formatting shared by the
innertube helpers (JS `%` is truncating, `Math.floor` is flooring). -/
def formatLiveDuration (lds : Int) : String :=
  let hours := lds.fdiv 3600
  let minutes := (lds.tmod 3600).fdiv 60
  let seconds := lds.tmod 60
  if hours > 0 then
    toString hours ++ ":" ++ jsPad2 minutes ++ ":" ++ jsPad2 seconds
  else
    toString minutes ++ ":" ++ jsPad2 seconds

/-- Raw shape consumed by `InnerTubeHelper.getVideoInfo`
(src/utils/innertubeHelper.js): the parts of `client.getInfo`'s result
that the function reads.  Timestamps are epoch ms (a present ISO string
is non-empty, hence truthy). -/
structure InnerTubeInfo where
  liveStreamStartTimestamp : Option Int := none
  basicStartTimestamp : Option Int := none
  microformatStartTimestamp : Option Int := none
  title : Option String := none
  channelName : Option String := none
  is_live : Option Bool := none
  view_count : Option Nat := none
  short_description : Option String := none
  keywords : Option (List String) := none
  thumbnail : Option (List Thumb) := none
  durationText : Option String := none
deriving Repr, DecidableEq

/-- `InnerTubeHelper.getVideoInfo` (src/utils/innertubeHelper.js,
lines 37–91): always tags the view count `total_stream_views`. -/
def innertubeGetVideoInfo (videoId : String) (now : Int)
    (info : InnerTubeInfo) : LiveRecord :=
  let startTime :=
    jsTsOr info.liveStreamStartTimestamp
      (jsTsOr info.basicStartTimestamp info.microformatStartTimestamp)
  let isLive := info.is_live.getD false
  let lds : Option Int :=
    if isLive && startTime.isSome then
      some ((now - startTime.getD 0).fdiv 1000)
    else none
  { method := "innertube"
    videoId := some videoId
    title := info.title
    channelName := jsStrOr info.channelName none
    isLiveNow := isLive
    concurrentViewers := jsNumOrNull info.view_count
    viewerCountType := some "total_stream_views"
    thumbnails := info.thumbnail.getD []
    description := jsDescribe info.short_description
    actualStartTime := startTime
    isLiveContent := isLive
    duration := jsStrOr info.durationText none
    liveDuration := lds.map formatLiveDuration
    liveDurationSeconds := lds
    tags := some ((info.keywords.getD []).take 20) }

/-- Raw shape consumed by the enhanced `getVideoInfo` variant
(the InnerTube helper with live-chat support): the basic fields plus
the three candidate concurrent-viewer sources it probes. -/
structure EnhancedInfo where
  liveStreamStartTimestamp : Option Int := none
  basicStartTimestamp : Option Int := none
  microformatStartTimestamp : Option Int := none
  title : Option String := none
  channelName : Option String := none
  is_live : Option Bool := none
  view_count : Option Nat := none
  watching_count : Option Nat := none
  microformatConcurrentViewers : Option Nat := none
  streamingConcurrentViewers : Option Nat := none
  short_description : Option String := none
  keywords : Option (List String) := none
  thumbnail : Option (List Thumb) := none
  durationText : Option String := none
deriving Repr, DecidableEq

/-- The enhanced `getVideoInfo` variant: for live streams it probes
`watching_count || microformat.concurrentViewers ||
streaming_data.concurrent_viewers || null` and tags
`concurrent_viewers` when something was found, else
`total_stream_views`; for non-live content it uses `view_count` tagged
`total_views`.  (The local `viewerCountType = 'unknown'` initialiser
is overwritten on both branches before the record is built.) -/
def enhancedGetVideoInfo (videoId : String) (now : Int)
    (info : EnhancedInfo) : LiveRecord :=
  let startTime :=
    jsTsOr info.liveStreamStartTimestamp
      (jsTsOr info.basicStartTimestamp info.microformatStartTimestamp)
  let isLive := info.is_live.getD false
  let lds : Option Int :=
    if isLive && startTime.isSome then
      some ((now - startTime.getD 0).fdiv 1000)
    else none
  let cv : Option Nat :=
    if isLive then
      jsNumOr info.watching_count
        (jsNumOr info.microformatConcurrentViewers
          (jsNumOrNull info.streamingConcurrentViewers))
    else jsNumOrNull info.view_count
  let vct : String :=
    if isLive then
      if cv.isSome then "concurrent_viewers" else "total_stream_views"
    else "total_views"
  { method := "innertube"
    videoId := some videoId
    title := info.title
    channelName := jsStrOr info.channelName none
    isLiveNow := isLive
    concurrentViewers := cv
    viewerCountType := some vct
    thumbnails := info.thumbnail.getD []
    description := jsDescribe info.short_description
    actualStartTime := startTime
    isLiveContent := isLive
    duration := jsStrOr info.durationText none
    liveDuration := lds.map formatLiveDuration
    liveDurationSeconds := lds
    tags := some ((info.keywords.getD []).take 20) }

/-- Raw yt-dlp JSON fields read by `YouTubeService.tryYtDlp`
(`data.timestamp` is epoch seconds). -/
structure YtDlpData where
  id : String
  title : Option String := none
  uploader : Option String := none
  is_live : Option Bool := none
  view_count : Option Nat := none
  thumbnail : Option String := none
  description : Option String := none
  timestamp : Option Int := none
deriving Repr, DecidableEq

/-- The record built by `YouTubeService.tryYtDlp` from parsed yt-dlp
output (src/services/youtubeService.js, lines 113–124). -/
def ytDlpRecord (d : YtDlpData) : LiveRecord :=
  { method := "yt-dlp"
    videoId := some d.id
    title := d.title
    channelName := d.uploader
    isLiveNow := d.is_live == some true
    concurrentViewers := jsNumOrNull d.view_count
    thumbnails :=
      match d.thumbnail with
      | some u => if u = "" then [] else [⟨u, none, none⟩]
      | none => []
    description := jsDescribe d.description
    actualStartTime :=
      if jsIntTruthy d.timestamp then some (d.timestamp.getD 0 * 1000)
      else none
    isLiveContent := d.is_live == some true }

/-- Raw Invidious video/stream object fields read by the service
(`published` is epoch seconds). -/
structure InvidiousVideo where
  videoId : Option String := none
  title : Option String := none
  author : Option String := none
  liveNow : Option Bool := none
  viewCount : Option Nat := none
  videoThumbnails : Option (List Thumb) := none
  description : Option String := none
  published : Option Int := none
deriving Repr, DecidableEq

/-- Record built by `YouTubeService.getVideoFromInvidious` for one
successfully parsed response. -/
def invidiousVideoRecord (d : InvidiousVideo) : LiveRecord :=
  { method := "invidious"
    videoId := d.videoId
    title := d.title
    channelName := d.author
    isLiveNow := d.liveNow == some true
    concurrentViewers := jsNumOrNull d.viewCount
    thumbnails := d.videoThumbnails.getD []
    description := jsDescribe d.description
    actualStartTime :=
      if jsIntTruthy d.published then some (d.published.getD 0 * 1000)
      else none
    isLiveContent := d.liveNow == some true }

/-- Record built by `YouTubeService.getChannelLiveFromInvidious` for
the first live stream in a channel's stream list. -/
def invidiousStreamRecord (s : InvidiousVideo) : LiveRecord :=
  { method := "invidious"
    videoId := s.videoId
    title := s.title
    channelName := s.author
    isLiveNow := true
    concurrentViewers := jsNumOrNull s.viewCount
    thumbnails := s.videoThumbnails.getD []
    description := jsDescribe s.description
    actualStartTime :=
      if jsIntTruthy s.published then some (s.published.getD 0 * 1000)
      else none
    isLiveContent := true }

/-- `YouTubeService.getVideoFromInvidious`: loop over the configured
instances; a failed/not-ok/unparsable response continues to the next
instance (`none` entry); the first successful response is returned;
if every instance failed, throw. -/
def getVideoFromInvidious (responses : List (Option InvidiousVideo)) :
    Except Unit LiveRecord :=
  match (responses.filterMap id).head? with
  | some d => .ok (invidiousVideoRecord d)
  | none => .error ()

/-- `YouTubeService.getChannelLiveFromInvidious`: the first instance
that responds decides — a live stream in its list yields a record,
otherwise the function returns `null`; if every instance failed, throw. -/
def getChannelLiveFromInvidious
    (responses : List (Option (List InvidiousVideo))) :
    Except Unit (Option LiveRecord) :=
  match (responses.filterMap id).head? with
  | some streams =>
    match (streams.filter (fun v => v.liveNow == some true)).head? with
    | some s => .ok (some (invidiousStreamRecord s))
    | none => .ok none
  | none => .error ()

/-- The object returned by `getLiveMetaFromVideoId`
(src/scripts/live_meta_from_channel.mjs); it carries no `method`
property, so the `{ method: 'scraping', ...meta }` spread in
`tryEnhancedScraping` keeps `method = "scraping"`. -/
structure ScrapedMeta where
  videoId : String
  isLiveNow : Bool := false
  title : Option String := none
  channelName : Option String := none
  concurrentViewers : Option Nat := none
  actualStartTime : Option Int := none
  scheduledStartTime : Option Int := none
  endTime : Option Int := none
  description : Option String := none
  thumbnails : List Thumb := []
  tags : Option (List String) := none
  category : Option String := none
  isLiveContent : Bool := false
  lengthSeconds : Option Int := none
deriving Repr, DecidableEq

/-- `{ method: 'scraping', ...meta }`. -/
def scrapedRecord (m : ScrapedMeta) : LiveRecord :=
  { method := "scraping"
    videoId := some m.videoId
    title := m.title
    channelName := m.channelName
    isLiveNow := m.isLiveNow
    concurrentViewers := m.concurrentViewers
    thumbnails := m.thumbnails
    description := m.description
    actualStartTime := m.actualStartTime
    scheduledStartTime := m.scheduledStartTime
    endTime := m.endTime
    tags := m.tags
    category := m.category
    isLiveContent := m.isLiveContent
    lengthSeconds := m.lengthSeconds }

/-! ## YouTubeService.getLiveMetadata (src/services/youtubeService.js)

The external world each adapter talks to (the Innertube client, the
yt-dlp subprocess, the Invidious instances, the scraping fetches) is an
explicit environment. -/

structure AdapterEnv where
  /-- whether `innertubeHelper.init()` (lazy `Innertube.create`) succeeds -/
  itInitOk : Bool := true
  /-- result of `client.getInfo(videoId)` on the video path -/
  itVideoInfo : Except Unit InnerTubeInfo := .error ()
  /-- channel path: the live video id found by `getChannel` plus the
  badge/`is_live` scan of `channel.videos` (`.ok none` = channel
  fetched but nothing live; `.error` = the fetch threw, which
  `getChannelLiveInfo` catches and turns into `null`) -/
  itChannelLiveVideoId : Except Unit (Option String) := .ok none
  /-- result of `getVideoInfo` on the found live video id -/
  itChannelVideoInfo : Except Unit InnerTubeInfo := .error ()
  /-- result of the `yt-dlp --dump-json` subprocess plus JSON parse -/
  ytDlpExec : Except Unit YtDlpData := .error ()
  /-- one entry per Invidious instance on the video path -/
  invVideoResponses : List (Option InvidiousVideo) := []
  /-- one entry per Invidious instance on the channel path -/
  invChannelResponses : List (Option (List InvidiousVideo)) := []
  /-- `getLiveMetaFromVideoId(videoId)` on the video path -/
  scrapeVideoMeta : Except Unit ScrapedMeta := .error ()
  /-- `resolveLiveVideoIdStrict(channelId)` -/
  scrapeResolve : Except Unit (Option String) := .error ()
  /-- `getLiveMetaFromVideoId(resolvedVideoId)` -/
  scrapeChannelMeta : Except Unit ScrapedMeta := .error ()
deriving Repr, DecidableEq

/-- `YouTubeService.tryInnerTube` / `innertubeHelper.getLiveInfo`.
Video-path errors propagate (wrapped); channel-path errors are caught
by `getChannelLiveInfo` and become `null`. -/
def tryInnerTube (now : Int) (ch vid : Option String) (env : AdapterEnv) :
    Except Unit (Option LiveRecord) :=
  if !env.itInitOk then .error ()
  else
    match vid with
    | some v =>
      match env.itVideoInfo with
      | .ok info => .ok (some (innertubeGetVideoInfo v now info))
      | .error _ => .error ()
    | none =>
      match ch with
      | some c =>
        match env.itChannelLiveVideoId with
        | .ok (some liveId) =>
          match env.itChannelVideoInfo with
          | .ok info =>
            .ok (some { innertubeGetVideoInfo liveId now info with
                          channelId := some c })
          | .error _ => .ok none
        | .ok none => .ok none
        | .error _ => .ok none
      | none => .ok none

/-- `YouTubeService.tryYtDlp`: a successful subprocess run always
yields a record (never `null`); a failed run throws. -/
def tryYtDlp (env : AdapterEnv) : Except Unit (Option LiveRecord) :=
  match env.ytDlpExec with
  | .ok d => .ok (some (ytDlpRecord d))
  | .error _ => .error ()

/-- `YouTubeService.tryInvidious`. -/
def tryInvidious (vid : Option String) (env : AdapterEnv) :
    Except Unit (Option LiveRecord) :=
  match vid with
  | some _ =>
    match getVideoFromInvidious env.invVideoResponses with
    | .ok r => .ok (some r)
    | .error e => .error e
  | none => getChannelLiveFromInvidious env.invChannelResponses

/-- `YouTubeService.tryEnhancedScraping`. -/
def tryEnhancedScraping (vid : Option String) (env : AdapterEnv) :
    Except Unit (Option LiveRecord) :=
  match vid with
  | some _ =>
    match env.scrapeVideoMeta with
    | .ok m => .ok (some (scrapedRecord m))
    | .error _ => .error ()
  | none =>
    match env.scrapeResolve with
    | .error _ => .error ()
    | .ok none => .ok none
    | .ok (some _) =>
      match env.scrapeChannelMeta with
      | .ok m => .ok (some (scrapedRecord m))
      | .error _ => .error ()

/-- The four try/catch blocks of `getLiveMetadata` in source order:
the first adapter whose call yields a truthy (non-null) record wins;
a `null` or an exception moves on to the next; if none produced a
record, throw `All methods failed`.  Also returns the names of the
adapters that were invoked. -/
def runAdapters (trials : List (String × Except Unit (Option LiveRecord))) :
    Except Unit LiveRecord × List String :=
  match trials with
  | [] => (.error (), [])
  | (name, outcome) :: rest =>
    match outcome with
    | .ok (some r) => (.ok r, [name])
    | .ok none =>
      let p := runAdapters rest
      (p.1, name :: p.2)
    | .error _ =>
      let p := runAdapters rest
      (p.1, name :: p.2)

abbrev SvcCache := List (String × LiveRecord × Int)

/-- `const cacheKey = videoId || channelId`. -/
def svcCacheKey (ch vid : Option String) : String :=
  (jsStrOr vid ch).getD ""

def svcCacheTimeoutMs : Int := 5 * 60 * 1000

/-- The in-service cache check: a fresh entry is returned, a stale one
is a miss (and is deleted on the miss path of `getLiveMetadata`). -/
def svcCacheLookup (st : SvcCache) (now : Int) (key : String) :
    Option LiveRecord :=
  match st.find? (fun e => e.1 == key) with
  | some e => if now - e.2.2 < svcCacheTimeoutMs then some e.2.1 else none
  | none => none

/-- `setCacheAndReturn`. -/
def svcCacheSet (st : SvcCache) (now : Int) (key : String)
    (d : LiveRecord) : SvcCache :=
  (key, d, now) :: st.filter (fun e => !(e.1 == key))

structure ResolveOutcome where
  result : Except Unit LiveRecord
  state : SvcCache
  adaptersTried : List String
deriving Repr, DecidableEq

/-- The candidate list in its fixed priority order. -/
def adapterTrials (now : Int) (ch vid : Option String) (env : AdapterEnv) :
    List (String × Except Unit (Option LiveRecord)) :=
  [("innertube", tryInnerTube now ch vid env),
   ("yt-dlp", tryYtDlp env),
   ("invidious", tryInvidious vid env),
   ("scraping", tryEnhancedScraping vid env)]

/-- `YouTubeService.getLiveMetadata` (src/services/youtubeService.js,
lines 16–80). -/
def getLiveMetadata (st : SvcCache) (now : Int) (ch vid : Option String)
    (env : AdapterEnv) : ResolveOutcome :=
  let key := svcCacheKey ch vid
  match svcCacheLookup st now key with
  | some d => ⟨.ok d, st, []⟩
  | none =>
    let st1 := st.filter (fun e => !(e.1 == key))
    let p := runAdapters (adapterTrials now ch vid env)
    match p.1 with
    | .ok r => ⟨.ok r, svcCacheSet st1 now key r, p.2⟩
    | .error e => ⟨.error e, st1, p.2⟩

/-! ## HybridYouTubeService (src/services/hybridYoutubeService.js) -/

/-- Mutable service state: the configured key (`null` when the env var
is unset, which also leaves `this.youtubeApi` null) and the quota
counter. -/
structure HybridState where
  apiKey : Option String := none
  quotaUsed : Nat := 0
deriving Repr, DecidableEq

/-- The object `YouTubeApiHelper.getConcurrentViewers` resolves to when
the video has `liveStreamingDetails` (timestamps as epoch ms). -/
structure ApiViewerData where
  concurrentViewers : Option Nat := none
  actualStartTime : Option Int := none
  scheduledStartTime : Option Int := none
  isLiveNow : Bool := false
  apiQuotaUsed : Nat := 1
deriving Repr, DecidableEq

/-- Outcome of one `HybridYouTubeService.getLiveMetadata` call: the
returned value (or propagated error), the state afterwards, and
whether the paid Data API lookup was actually invoked. -/
structure HybridOutcome where
  out : Except Unit (Option LiveRecord)
  st : HybridState
  apiInvoked : Bool
deriving Repr, DecidableEq

/-- `HybridYouTubeService.getLiveMetadata` (lines 26–82).
`free` is the outcome of the `youtubeService.getLiveMetadata` call
(step 1); `apiCall` is the outcome the paid
`youtubeApi.getConcurrentViewers` lookup would have (it only matters
when the lookup is actually made).  Note that nothing consults the
quota counter before the paid call. -/
def hybridGetLiveMetadata (st : HybridState)
    (free : Except Unit (Option LiveRecord))
    (apiCall : Except String (Option ApiViewerData)) : HybridOutcome :=
  match free with
  | .error _ => ⟨.error (), st, false⟩
  | .ok none => ⟨.ok none, st, false⟩
  | .ok (some fm) =>
    if st.apiKey.isSome && fm.videoId.isSome then
      match apiCall with
      | .ok (some d) =>
        ⟨.ok (some { fm with
            concurrentViewers := d.concurrentViewers
            viewerCountType := some "concurrent_viewers_api"
            viewerCountSource := some "youtube_data_api_v3"
            actualStartTime := jsTsOr d.actualStartTime fm.actualStartTime
            isLiveNow := d.isLiveNow
            quotaUsed := some d.apiQuotaUsed
            hybrid := some true }),
         { st with quotaUsed := st.quotaUsed + d.apiQuotaUsed }, true⟩
      | .ok none =>
        -- apiViewerData was null: fall through to step 3
        ⟨.ok (some { fm with
            viewerCountType := some "total_stream_views"
            viewerCountSource := some fm.method
            hybrid := some false
            note := some (if st.apiKey.isSome then "API failed, using free data"
                          else "No API key configured") }),
         st, true⟩
      | .error msg =>
        ⟨.ok (some { fm with
            viewerCountType := some "total_stream_views"
            viewerCountSource := some fm.method
            apiError := some msg
            hybrid := some true }),
         st, true⟩
    else
      ⟨.ok (some { fm with
          viewerCountType := some "total_stream_views"
          viewerCountSource := some fm.method
          hybrid := some false
          note := some (if st.apiKey.isSome then "API failed, using free data"
                        else "No API key configured") }),
       st, false⟩

/-- The integer/boolean fields of `getQuotaUsage` (lines 105–118); the
float-valued fields (`estimatedDailyCost`, `hoursElapsed`,
`averageQuotaPerHour`) are outside the claims and omitted. -/
structure QuotaUsage where
  quotaUsedToday : Nat
  freeQuotaLimit : Nat
  quotaRemaining : Int
  willExceedFree : Bool
deriving Repr, DecidableEq

def getQuotaUsage (st : HybridState) : QuotaUsage :=
  { quotaUsedToday := st.quotaUsed
    freeQuotaLimit := 10000
    quotaRemaining := max 0 (10000 - (st.quotaUsed : Int))
    willExceedFree := decide (st.quotaUsed > 10000) }

/-! ## GET /status/:channelId (src/routes/youtube.js, lines 105–177) -/

/-- What `Promise.race([youtubeService.getLiveMetadata(channelId),
fastTimeout])` settles to first. -/
inductive RaceOutcome where
  /-- the service resolved with a record before the 1.5 s deadline -/
  | value (r : LiveRecord)
  /-- the service rejected before the 1.5 s deadline -/
  | serviceError
  /-- the 1.5 s route deadline fired first -/
  | timeout
deriving Repr, DecidableEq

/-- The JSON body the status route sends (`success`, `channelId`,
`isLive`, `cached`, optional `note`; the timestamp is omitted). -/
structure StatusResponse where
  success : Bool
  channelId : String
  isLive : Bool
  cached : Bool
  note : Option String := none
deriving Repr, DecidableEq

/-- The `GET /status/:channelId` handler after validation: check the
route cache, otherwise race the resolution against the 1.5 s deadline;
on a record, cache it for 60 s; on a timeout or service error, answer
`200` with `isLive: false` and the `note` `'Timeout - assuming
offline'` instead of propagating an error. -/
def statusHandler (st : CacheState) (now : Int) (channelId : String)
    (race : RaceOutcome) : StatusResponse × CacheState :=
  let key := csGenerateKey "status" channelId
  match csGet st now key with
  | some m =>
    (⟨true, channelId, m.isLiveNow == true, true, none⟩, st)
  | none =>
    match race with
    | .value r =>
      (⟨true, channelId, r.isLiveNow == true, false, none⟩,
       csSet st now key (some r) 60)
    | .serviceError =>
      (⟨true, channelId, false, false, some "Timeout - assuming offline"⟩, st)
    | .timeout =>
      (⟨true, channelId, false, false, some "Timeout - assuming offline"⟩, st)

/-! ## Validation middleware (src/middleware/validation.js) -/

/-- One character of the class `[a-zA-Z0-9_-]`. -/
def isIdChar (c : Char) : Bool :=
  c.isAlpha || c.isDigit || c = '_' || c = '-'

/-- `^[a-zA-Z0-9_-]{11}$` (over the string's character list). -/
def videoIdMatches (s : String) : Bool :=
  s.data.length = 11 && s.data.all isIdChar

/-- `^UC[a-zA-Z0-9_-]{22}$`: the fixed `UC` prefix is the first two
characters, followed by 22 characters of the class. -/
def channelIdMatches (s : String) : Bool :=
  s.data.length = 24 && s.data.take 2 = ['U', 'C'] &&
    (s.data.drop 2).all isIdChar

def videoIdMessage : String :=
  "Video ID must be exactly 11 characters containing only letters, numbers, hyphens, and underscores"

def channelIdMessage : String :=
  "Channel ID must be exactly 24 characters starting with UC"

/-- `validateVideoId`: the `isLength({min:11,max:11})` check and the
`matches(regex)` check each contribute one validation error. -/
def validateVideoIdErrors (s : String) : List String :=
  (if s.data.length = 11 then [] else [videoIdMessage]) ++
  (if videoIdMatches s then [] else [videoIdMessage])

/-- `validateChannelId`. -/
def validateChannelIdErrors (s : String) : List String :=
  (if s.data.length = 24 then [] else [channelIdMessage]) ++
  (if channelIdMatches s then [] else [channelIdMessage])

/-- What a validated route does with a request: `rejected 400` means
`handleValidationErrors` answered with the 400 validation response and
the route handler (and hence any adapter or resolution call inside it)
never ran; `reachedHandler` means `next()` was called and the request
reached the handler's resolution logic. -/
inductive PipelineOutcome where
  | rejected (status : Nat)
  | reachedHandler
deriving Repr, DecidableEq

/-- `handleValidationErrors`: a non-empty error list short-circuits
with status 400, otherwise `next()`. -/
def handleValidationOutcome (errs : List String) : PipelineOutcome :=
  if errs.isEmpty then .reachedHandler else .rejected 400

/-- The middleware chain of a `:videoId` route up to its handler. -/
def runVideoRoute (videoId : String) : PipelineOutcome :=
  handleValidationOutcome (validateVideoIdErrors videoId)

/-- The middleware chain of a `:channelId` route up to its handler. -/
def runChannelRoute (channelId : String) : PipelineOutcome :=
  handleValidationOutcome (validateChannelIdErrors channelId)

/-! ## Two concurrent `getOrSet` calls (for the single-flight claim)

`getOrSet` suspends at `await fetchFunction()` between its cache check
and its store, so two calls for the same key can interleave.  Each call
is a small state machine with two atomic steps: the `get` check, and
the fetch completion (which stores on success).  A schedule says which
call steps next. -/

structure CallCtx where
  checked : Bool := false
  invoked : Bool := false
  result : Option (Except Unit (Option LiveRecord)) := none
deriving Repr, DecidableEq

/-- One atomic step of a `getOrSet` call against the shared cache. -/
def stepCall (now : Int) (key : String) (ttl : Int)
    (fetchResult : Except Unit (Option LiveRecord))
    (cache : CacheState) (ctx : CallCtx) : CacheState × CallCtx :=
  if ctx.result.isSome then (cache, ctx)
  else if !ctx.checked then
    match csGet cache now key with
    | some v => (cache, { ctx with checked := true, result := some (.ok (some v)) })
    | none => (cache, { ctx with checked := true })
  else
    match fetchResult with
    | .ok value =>
      (csSet cache now key value ttl,
       { ctx with invoked := true, result := some (.ok value) })
    | .error e =>
      (cache, { ctx with invoked := true, result := some (.error e) })

/-- Run two concurrent `getOrSet` calls A and B for the same key under
a schedule (`true` = A steps, `false` = B steps). -/
def runSchedule (now : Int) (key : String) (ttl : Int)
    (fetchA fetchB : Except Unit (Option LiveRecord)) :
    List Bool → CacheState × CallCtx × CallCtx → CacheState × CallCtx × CallCtx
  | [], s => s
  | (who :: rest), (cache, ctxA, ctxB) =>
    if who then
      let p := stepCall now key ttl fetchA cache ctxA
      runSchedule now key ttl fetchA fetchB rest (p.1, p.2, ctxB)
    else
      let p := stepCall now key ttl fetchB cache ctxB
      runSchedule now key ttl fetchA fetchB rest (p.1, ctxA, p.2)

/-! ## Auxiliary predicates and concrete inputs used by the theorems -/

/-- An adapter attempt that produced no record: it either returned
`null` (Empty) or threw. -/
def noSignal (o : Except Unit (Option LiveRecord)) : Prop :=
  o = .ok none ∨ o = .error ()

instance (o : Except Unit (Option LiveRecord)) : Decidable (noSignal o) := by
  unfold noSignal
  infer_instance

/-- The names of the four adapters, in priority order. -/
def trialNames : List String :=
  ["innertube", "yt-dlp", "invidious", "scraping"]

/-- The outcome of the k-th adapter attempt (0 = innerTube,
1 = yt-dlp, 2 = Invidious, 3 = enhanced scraping). -/
def trialOutcome (now : Int) (ch vid : Option String) (env : AdapterEnv)
    (k : Nat) : Except Unit (Option LiveRecord) :=
  if k = 0 then tryInnerTube now ch vid env
  else if k = 1 then tryYtDlp env
  else if k = 2 then tryInvidious vid env
  else tryEnhancedScraping vid env

/-- Environment for the C1 witness: the Innertube client fails to
initialise (the adapter throws) and yt-dlp finds a live stream. -/
def envC1 : AdapterEnv :=
  { itInitOk := false
    ytDlpExec := .ok
      { id := "dQw4w9WgXcQ"
        title := some "Live now"
        uploader := some "SomeChannel"
        is_live := some true
        view_count := some 1200 } }

/-- The record the C1 witness resolution returns. -/
def recC1 : LiveRecord :=
  ytDlpRecord
    { id := "dQw4w9WgXcQ"
      title := some "Live now"
      uploader := some "SomeChannel"
      is_live := some true
      view_count := some 1200 }

/-- Environment for C2: a channel-mode resolution where innerTube,
Invidious and enhanced scraping each run successfully and confirm
not-live (`null`), and yt-dlp fails (its subprocess cannot return
`null`: a successful run always produces a record). -/
def envC2 : AdapterEnv :=
  { itInitOk := true
    itChannelLiveVideoId := .ok none
    ytDlpExec := .error ()
    invChannelResponses := [some []]
    scrapeResolve := .ok none }

/-- Hybrid state for C4: quota fully consumed, API key configured. -/
def stC4 : HybridState := { apiKey := some "AIza-key", quotaUsed := 10000 }

/-- Free metadata for C4: a resolved video id. -/
def fmC4 : LiveRecord := { method := "innertube", videoId := some "dQw4w9WgXcQ" }

/-- The paid lookup's answer for C4 (it is reached and succeeds). -/
def apiC4 : Except String (Option ApiViewerData) :=
  .ok (some { concurrentViewers := some 42, isLiveNow := true, apiQuotaUsed := 1 })

/-- Raw video info for the C9 counterexample: `view_count` absent. -/
def infoC9 : InnerTubeInfo := {}

/-! ## Theorems -/

theorem csGet_csSet_fresh (st : CacheState) (now t : Int) (key : String)
    (rec : LiveRecord) (ttl : Int) (h : t < now + ttl * 1000) :
    csGet (csSet st now key (some rec) ttl) t key = some rec := by
  simp [csGet, ncGet, csSet, List.find?, h]

theorem csGet_csSet_expired (st : CacheState) (now t : Int) (key : String)
    (v : Option LiveRecord) (ttl : Int) (h : ¬ t < now + ttl * 1000) :
    csGet (csSet st now key v ttl) t key = none := by
  simp [csGet, ncGet, csSet, List.find?, h]

theorem tryInnerTube_method (now : Int) (ch vid : Option String)
    (env : AdapterEnv) (r : LiveRecord)
    (h : tryInnerTube now ch vid env = .ok (some r)) :
    r.method = "innertube" := by
  unfold tryInnerTube at h
  repeat' split at h
  all_goals (try simp at h)
  all_goals (subst h; first | rfl | simp)

theorem tryYtDlp_method (env : AdapterEnv) (r : LiveRecord)
    (h : tryYtDlp env = .ok (some r)) :
    r.method = "yt-dlp" := by
  unfold tryYtDlp at h
  split at h
  all_goals (try simp at h)
  all_goals (subst h; first | rfl | simp)

theorem getVideoFromInvidious_method (rs : List (Option InvidiousVideo))
    (r : LiveRecord) (h : getVideoFromInvidious rs = .ok r) :
    r.method = "invidious" := by
  unfold getVideoFromInvidious at h
  split at h
  all_goals (try simp at h)
  all_goals (subst h; rfl)

theorem getChannelLiveFromInvidious_method
    (rs : List (Option (List InvidiousVideo))) (r : LiveRecord)
    (h : getChannelLiveFromInvidious rs = .ok (some r)) :
    r.method = "invidious" := by
  unfold getChannelLiveFromInvidious at h
  repeat' split at h
  all_goals (try simp at h)
  all_goals (subst h; rfl)

theorem tryInvidious_method (vid : Option String) (env : AdapterEnv)
    (r : LiveRecord) (h : tryInvidious vid env = .ok (some r)) :
    r.method = "invidious" := by
  unfold tryInvidious at h
  split at h
  · split at h
    next r0 heq =>
      simp at h
      subst h
      exact getVideoFromInvidious_method _ _ heq
    next e heq => simp at h
  · exact getChannelLiveFromInvidious_method _ _ h

theorem tryEnhancedScraping_method (vid : Option String) (env : AdapterEnv)
    (r : LiveRecord) (h : tryEnhancedScraping vid env = .ok (some r)) :
    r.method = "scraping" := by
  unfold tryEnhancedScraping at h
  repeat' split at h
  all_goals (try simp at h)
  all_goals (subst h; first | rfl | simp)

/-- **C1.** On a cache miss, `YouTubeService.getLiveMetadata` tries the
adapters in the fixed order innerTube, yt-dlp, Invidious, enhanced
scraping; if the first `k` candidates produced no record (returned
`null` or threw) and candidate `k` returns a record — in particular any
record with `isLiveNow = true` — that record is returned as-is, its
`method` field is that adapter's name, and no adapter after position
`k` is invoked (exactly the first `k+1` adapter names appear in the
invocation list). -/
theorem c1_first_nonnull_adapter_wins
    (st : SvcCache) (now : Int) (ch vid : Option String) (env : AdapterEnv)
    (k : Nat) (r : LiveRecord)
    (hmiss : svcCacheLookup st now (svcCacheKey ch vid) = none)
    (hk : k < 4)
    (hprev : ∀ j, j < k → noSignal (trialOutcome now ch vid env j))
    (hhit : trialOutcome now ch vid env k = .ok (some r)) :
    (getLiveMetadata st now ch vid env).result = .ok r ∧
    r.method = trialNames.getD k "" ∧
    (getLiveMetadata st now ch vid env).adaptersTried = trialNames.take (k + 1) := by
  interval_cases k
  · simp [trialOutcome] at hhit
    have hm := tryInnerTube_method now ch vid env r hhit
    simp [getLiveMetadata, hmiss, adapterTrials, runAdapters, hhit, trialNames, hm]
  · have h0 := hprev 0 (by norm_num)
    simp [trialOutcome] at h0 hhit
    have hm := tryYtDlp_method env r hhit
    rcases h0 with h0 | h0 <;>
      simp [getLiveMetadata, hmiss, adapterTrials, runAdapters, h0, hhit,
        trialNames, hm]
  · have h0 := hprev 0 (by norm_num)
    have h1 := hprev 1 (by norm_num)
    simp [trialOutcome] at h0 h1 hhit
    have hm := tryInvidious_method vid env r hhit
    rcases h0 with h0 | h0 <;> rcases h1 with h1 | h1 <;>
      simp [getLiveMetadata, hmiss, adapterTrials, runAdapters, h0, h1, hhit,
        trialNames, hm]
  · have h0 := hprev 0 (by norm_num)
    have h1 := hprev 1 (by norm_num)
    have h2 := hprev 2 (by norm_num)
    simp [trialOutcome] at h0 h1 h2 hhit
    have hm := tryEnhancedScraping_method vid env r hhit
    rcases h0 with h0 | h0 <;> rcases h1 with h1 | h1 <;>
      rcases h2 with h2 | h2 <;>
      simp [getLiveMetadata, hmiss, adapterTrials, runAdapters, h0, h1, h2,
        hhit, trialNames, hm]

/-- C1 witness: innerTube throws (client init failure), yt-dlp returns
a live record; the call returns that record, tagged `yt-dlp`, and
Invidious and scraping are never invoked. -/
theorem c1_first_nonnull_adapter_wins_witness :
    (getLiveMetadata [] 0 (some "UCabc") none envC1).result = .ok recC1 ∧
    recC1.method = trialNames.getD 1 "" ∧
    (getLiveMetadata [] 0 (some "UCabc") none envC1).adaptersTried =
      trialNames.take (1 + 1) :=
  c1_first_nonnull_adapter_wins [] 0 (some "UCabc") none envC1 1 recC1
    rfl (by norm_num)
    (by
      intro j hj
      interval_cases j
      exact Or.inr rfl)
    rfl

theorem runAdapters_error_iff
    (trials : List (String × Except Unit (Option LiveRecord))) :
    (runAdapters trials).1 = .error () ↔ ∀ p ∈ trials, noSignal p.2 := by
  induction trials with
  | nil => simp [runAdapters]
  | cons hd tl ih =>
    obtain ⟨name, outcome⟩ := hd
    cases outcome with
    | ok v =>
      cases v with
      | some r => simp [runAdapters, noSignal]
      | none => simp [runAdapters, noSignal, ih]
    | error e =>
      cases e
      simp [runAdapters, noSignal, ih]

theorem trials_forall_iff (now : Int) (ch vid : Option String)
    (env : AdapterEnv) :
    (∀ p ∈ adapterTrials now ch vid env, noSignal p.2) ↔
    (∀ k, k < 4 → noSignal (trialOutcome now ch vid env k)) := by
  constructor
  · intro h k hk
    interval_cases k
    · simpa [trialOutcome] using
        h ("innertube", tryInnerTube now ch vid env) (by simp [adapterTrials])
    · simpa [trialOutcome] using
        h ("yt-dlp", tryYtDlp env) (by simp [adapterTrials])
    · simpa [trialOutcome] using
        h ("invidious", tryInvidious vid env) (by simp [adapterTrials])
    · simpa [trialOutcome] using
        h ("scraping", tryEnhancedScraping vid env) (by simp [adapterTrials])
  · intro h p hp
    simp only [adapterTrials, List.mem_cons, List.mem_singleton] at hp
    rcases hp with hp | hp | hp | hp | hp
    · subst hp; simpa [trialOutcome] using h 0 (by norm_num)
    · subst hp; simpa [trialOutcome] using h 1 (by norm_num)
    · subst hp; simpa [trialOutcome] using h 2 (by norm_num)
    · subst hp; simpa [trialOutcome] using h 3 (by norm_num)
    · simp at hp

/-- **C2 (counterexample).** A channel-mode resolution in which the
innerTube, Invidious and scraping adapters each run successfully and
return Empty (`null`, a confirmed not-live signal) and yt-dlp throws
(its subprocess cannot return Empty at all): the call does not return
an Empty-derived "not live" record — it throws the
`All methods failed` error, the same outcome as when no adapter
produced any signal. -/
theorem c2_counterexample :
    trialOutcome 0 (some "UCabc") none envC2 0 = .ok none ∧
    trialOutcome 0 (some "UCabc") none envC2 2 = .ok none ∧
    trialOutcome 0 (some "UCabc") none envC2 3 = .ok none ∧
    (getLiveMetadata [] 0 (some "UCabc") none envC2).result = .error () :=
  ⟨rfl, rfl, rfl, rfl⟩

/-- **C2 (amended).** On a cache miss, `getLiveMetadata` throws exactly
when every adapter produced no record — whether it threw or returned
Empty.  An all-Empty run is *not* turned into a "not live" record, and
no distinct "not found" outcome exists: both situations raise the same
`All methods failed` error, and a non-error return happens only when
some adapter produced a non-null record. -/
theorem c2_error_iff_no_signal
    (st : SvcCache) (now : Int) (ch vid : Option String) (env : AdapterEnv)
    (hmiss : svcCacheLookup st now (svcCacheKey ch vid) = none) :
    (getLiveMetadata st now ch vid env).result = .error () ↔
    (∀ k, k < 4 → noSignal (trialOutcome now ch vid env k)) := by
  have hres : (getLiveMetadata st now ch vid env).result =
      (runAdapters (adapterTrials now ch vid env)).1 := by
    simp only [getLiveMetadata, hmiss]
    split <;> simp_all
  rw [hres, runAdapters_error_iff]
  exact trials_forall_iff now ch vid env

/-- C2 witness: the amended theorem applied to the all-Empty-or-thrown
environment `envC2`. -/
theorem c2_error_iff_no_signal_witness :
    (getLiveMetadata [] 0 (some "UCabc") none envC2).result = .error () :=
  (c2_error_iff_no_signal [] 0 (some "UCabc") none envC2 rfl).mpr (by decide)

/-- **C3.** When `HybridYouTubeService.getLiveMetadata` returns a
record, its `viewerCountType` is the authoritative
`concurrent_viewers_api` tag exactly when the paid Data API lookup was
actually invoked during the call and resolved to viewer data; in every
other case (no API key, no resolved video id, the API returned nothing,
or the API threw) the tag is `total_stream_views`. -/
theorem c3_authoritative_tag_iff
    (st : HybridState) (free : Except Unit (Option LiveRecord))
    (apiCall : Except String (Option ApiViewerData)) (r : LiveRecord)
    (h : (hybridGetLiveMetadata st free apiCall).out = .ok (some r)) :
    (r.viewerCountType = some "concurrent_viewers_api" ↔
      ((hybridGetLiveMetadata st free apiCall).apiInvoked = true ∧
       ∃ d, apiCall = .ok (some d))) ∧
    (r.viewerCountType = some "concurrent_viewers_api" ∨
     r.viewerCountType = some "total_stream_views") := by
  have tag_ne : ("total_stream_views" : String) ≠ "concurrent_viewers_api" := by
    decide
  cases free with
  | error e => simp [hybridGetLiveMetadata] at h
  | ok v =>
    cases v with
    | none => simp [hybridGetLiveMetadata] at h
    | some fm =>
      cases hc : (st.apiKey.isSome && fm.videoId.isSome) with
      | true =>
        cases apiCall with
        | ok od =>
          cases od with
          | some d =>
            simp [hybridGetLiveMetadata, hc] at h ⊢
            subst h
            simp
          | none =>
            simp [hybridGetLiveMetadata, hc] at h ⊢
            subst h
            simp [tag_ne]
        | error msg =>
          simp [hybridGetLiveMetadata, hc] at h ⊢
          subst h
          simp [tag_ne]
      | false =>
        simp [hybridGetLiveMetadata, hc] at h ⊢
        subst h
        simp [tag_ne]

/-- C3 witness: key configured, video id resolved, paid lookup
succeeds — the record carries the authoritative tag. -/
theorem c3_authoritative_tag_iff_witness :
    (((hybridGetLiveMetadata stC4 (.ok (some fmC4)) apiC4).out =
        .ok (some { fmC4 with
          concurrentViewers := some 42
          viewerCountType := some "concurrent_viewers_api"
          viewerCountSource := some "youtube_data_api_v3"
          isLiveNow := true
          quotaUsed := some 1
          hybrid := some true })) ∧
     (({ fmC4 with
          concurrentViewers := some 42
          viewerCountType := some "concurrent_viewers_api"
          viewerCountSource := some "youtube_data_api_v3"
          isLiveNow := true
          quotaUsed := some 1
          hybrid := some true } : LiveRecord).viewerCountType =
        some "concurrent_viewers_api" ↔
      ((hybridGetLiveMetadata stC4 (.ok (some fmC4)) apiC4).apiInvoked = true ∧
       ∃ d, apiC4 = .ok (some d)))) :=
  ⟨by decide,
   (c3_authoritative_tag_iff stC4 (.ok (some fmC4)) apiC4 _ (by decide)).1⟩

/-- **C4 (counterexample).** With the quota fully consumed
(`getQuotaUsage` reports zero remaining units), an API key configured
and a resolved video id, `HybridYouTubeService.getLiveMetadata` still
invokes the paid Data API adapter: no quota check is consulted before
the call. -/
theorem c4_counterexample :
    (getQuotaUsage stC4).quotaRemaining = 0 ∧
    (hybridGetLiveMetadata stC4 (.ok (some fmC4)) apiC4).apiInvoked = true ∧
    (hybridGetLiveMetadata stC4 (.ok (some fmC4)) apiC4).st.quotaUsed = 10001 :=
  ⟨by decide, by decide, by decide⟩

/-- **C4 (amended).** The hybrid service never consults the quota
tracker during a resolution: the paid adapter is invoked exactly when
an API key is configured and the free metadata carries a video id —
for every quota level, including `quotaRemaining = 0`.  The
`quotaRemaining` figure of `getQuotaUsage` is only derived, after the
fact, from the units already consumed. -/
theorem c4_no_quota_gate (st : HybridState) (fm : LiveRecord)
    (apiCall : Except String (Option ApiViewerData)) :
    (hybridGetLiveMetadata st (.ok (some fm)) apiCall).apiInvoked =
      (st.apiKey.isSome && fm.videoId.isSome) := by
  cases hc : (st.apiKey.isSome && fm.videoId.isSome) with
  | true =>
    cases apiCall with
    | ok od =>
      cases od with
      | some d => simp [hybridGetLiveMetadata, hc]
      | none => simp [hybridGetLiveMetadata, hc]
    | error msg => simp [hybridGetLiveMetadata, hc]
  | false => simp [hybridGetLiveMetadata, hc]

/-- **C10.** If the paid Data API lookup throws during
`HybridYouTubeService.getLiveMetadata`, the returned record is exactly
the free-source metadata with only `viewerCountType`,
`viewerCountSource`, `apiError` and `hybrid` added or overwritten —
in particular `videoId`, `title`, `isLiveNow` and the free
`concurrentViewers` value are untouched. -/
theorem c10_api_error_preserves_free_fields (st : HybridState)
    (fm : LiveRecord) (msg : String)
    (hkey : st.apiKey.isSome = true) (hvid : fm.videoId.isSome = true) :
    (hybridGetLiveMetadata st (.ok (some fm)) (.error msg)).out =
      .ok (some { fm with
        viewerCountType := some "total_stream_views"
        viewerCountSource := some fm.method
        apiError := some msg
        hybrid := some true }) := by
  simp [hybridGetLiveMetadata, hkey, hvid]

/-- C10 witness: a concrete free record with every identity field set
survives an API failure unchanged except for the four overlay fields. -/
theorem c10_api_error_preserves_free_fields_witness :
    (hybridGetLiveMetadata { apiKey := some "AIza-key", quotaUsed := 3 }
        (.ok (some { method := "innertube", videoId := some "dQw4w9WgXcQ",
                     title := some "T", isLiveNow := true,
                     concurrentViewers := some 7 }))
        (.error "quotaExceeded")).out =
      .ok (some { ({ method := "innertube", videoId := some "dQw4w9WgXcQ",
                     title := some "T", isLiveNow := true,
                     concurrentViewers := some 7 } : LiveRecord) with
        viewerCountType := some "total_stream_views"
        viewerCountSource := some "innertube"
        apiError := some "quotaExceeded"
        hybrid := some true }) :=
  c10_api_error_preserves_free_fields
    { apiKey := some "AIza-key", quotaUsed := 3 }
    { method := "innertube", videoId := some "dQw4w9WgXcQ",
      title := some "T", isLiveNow := true, concurrentViewers := some 7 }
    "quotaExceeded" rfl rfl

/-- **C5.** On a route-cache miss, if the resolution does not settle
before the status route's 1.5 s deadline, the handler answers a
successful response with `isLive: false` and the note
`'Timeout - assuming offline'` instead of propagating an error; and a
genuine "not live" completion answers with `isLive: false` and no
note, so the two degraded/genuine responses differ in the `note`
field even though both present `isLive` as false. -/
theorem c5_timeout_assume_offline (st : CacheState) (now : Int)
    (ch : String) (r : LiveRecord)
    (hmiss : csGet st now (csGenerateKey "status" ch) = none)
    (hnotlive : r.isLiveNow = false) :
    (statusHandler st now ch .timeout).1 =
      ⟨true, ch, false, false, some "Timeout - assuming offline"⟩ ∧
    (statusHandler st now ch (.value r)).1 = ⟨true, ch, false, false, none⟩ ∧
    (statusHandler st now ch .timeout).1.note ≠
      (statusHandler st now ch (.value r)).1.note := by
  simp [statusHandler, hmiss, hnotlive]

/-- C5 witness: empty route cache, a default (not-live) record. -/
theorem c5_timeout_assume_offline_witness :
    (statusHandler [] 0 "UCabc" .timeout).1 =
      ⟨true, "UCabc", false, false, some "Timeout - assuming offline"⟩ ∧
    (statusHandler [] 0 "UCabc" (.value {})).1 =
      ⟨true, "UCabc", false, false, none⟩ ∧
    (statusHandler [] 0 "UCabc" .timeout).1.note ≠
      (statusHandler [] 0 "UCabc" (.value {})).1.note :=
  c5_timeout_assume_offline [] 0 "UCabc" {} rfl rfl

/-- **C6 (counterexample).** Two concurrent `getOrSet` calls for the
same missing key, interleaved so that both run their cache check
before either stores (`[A-check, B-check, A-fetch, B-fetch]`), each
invoke the underlying resolve function: the cache has no single-flight
collapse — the re-resolution is duplicated. -/
theorem c6_counterexample :
    ((runSchedule 0 "youtube:status:UCabc" 60 (.ok (some fmC4))
        (.ok (some fmC4)) [true, false, true, false]
        ([], {}, {})).2.1.invoked = true) ∧
    ((runSchedule 0 "youtube:status:UCabc" 60 (.ok (some fmC4))
        (.ok (some fmC4)) [true, false, true, false]
        ([], {}, {})).2.2.invoked = true) :=
  ⟨rfl, rfl⟩

/-- **C6 (amended).** Two reads of the same key within the entry's TTL
return the identical stored record, and a sequential read after TTL
expiry is a miss that triggers exactly one re-resolution; but
concurrent duplicate `getOrSet` calls for the same missing key are
*not* collapsed: under the check/check/fetch/fetch interleaving both
calls invoke the resolve function, whatever it returns. -/
theorem c6_ttl_and_no_single_flight (st : CacheState)
    (now t1 t2 t3 : Int) (key : String) (rec : LiveRecord)
    (ttl ttl2 : Int) (f fetchA fetchB : Except Unit (Option LiveRecord))
    (h1 : t1 < now + ttl * 1000) (h2 : t2 < now + ttl * 1000)
    (h3 : ¬ t3 < now + ttl * 1000) :
    csGet (csSet st now key (some rec) ttl) t1 key = some rec ∧
    csGet (csSet st now key (some rec) ttl) t2 key = some rec ∧
    (getOrSet (csSet st now key (some rec) ttl) t3 key f ttl2).fetchCalls = 1 ∧
    (runSchedule now key ttl fetchA fetchB [true, false, true, false]
        ([], {}, {})).2.1.invoked = true ∧
    (runSchedule now key ttl fetchA fetchB [true, false, true, false]
        ([], {}, {})).2.2.invoked = true := by
  refine ⟨csGet_csSet_fresh st now t1 key rec ttl h1,
          csGet_csSet_fresh st now t2 key rec ttl h2, ?_, ?_, ?_⟩
  · unfold getOrSet
    rw [csGet_csSet_expired st now t3 key (some rec) ttl h3]
    cases f <;> rfl
  · cases fetchA <;> cases fetchB <;> rfl
  · cases fetchA <;> cases fetchB <;> rfl

/-- C6 witness: concrete times around a 60 s TTL. -/
theorem c6_ttl_and_no_single_flight_witness :
    csGet (csSet [] 0 "youtube:channel:UCabc" (some fmC4) 60) 1000
        "youtube:channel:UCabc" = some fmC4 ∧
    csGet (csSet [] 0 "youtube:channel:UCabc" (some fmC4) 60) 59999
        "youtube:channel:UCabc" = some fmC4 ∧
    (getOrSet (csSet [] 0 "youtube:channel:UCabc" (some fmC4) 60) 60000
        "youtube:channel:UCabc" (.ok (some fmC4)) 60).fetchCalls = 1 ∧
    (runSchedule 0 "youtube:channel:UCabc" 60 (.ok (some fmC4)) (.ok none)
        [true, false, true, false] ([], {}, {})).2.1.invoked = true ∧
    (runSchedule 0 "youtube:channel:UCabc" 60 (.ok (some fmC4)) (.ok none)
        [true, false, true, false] ([], {}, {})).2.2.invoked = true :=
  c6_ttl_and_no_single_flight [] 0 1000 59999 60000 "youtube:channel:UCabc"
    fmC4 60 60 (.ok (some fmC4)) (.ok (some fmC4)) (.ok none)
    (by decide) (by decide) (by decide)

/-- **C7 (counterexample).** A resolution that completes with Empty
(`null`) *is* written to the cache, but it is never served: with the
stored-null entry present and unexpired, a second `getOrSet` for the
same key still invokes the fetch function (and returns that fresh
result), because `CacheService.get` maps both a miss and a stored
null to `null`. -/
theorem c7_counterexample :
    (getOrSet [] 0 "youtube:channel:UCabc" (.ok none) 300).result =
      .ok none ∧
    (getOrSet [] 0 "youtube:channel:UCabc" (.ok none) 300).state =
      [("youtube:channel:UCabc", none, 300000)] ∧
    (getOrSet [("youtube:channel:UCabc", none, 300000)] 1000
        "youtube:channel:UCabc" (.ok (some fmC4)) 300).fetchCalls = 1 ∧
    (getOrSet [("youtube:channel:UCabc", none, 300000)] 1000
        "youtube:channel:UCabc" (.ok (some fmC4)) 300).result =
      .ok (some fmC4) :=
  ⟨rfl, rfl, rfl, rfl⟩

/-- **C7 (amended).** An Empty (`null`) fetch result is stored in the
cache but can never be served from it — every subsequent `getOrSet`
for the key re-invokes the fetch function, because `get` conflates a
stored null with a miss; a fetch that throws stores nothing: the
cache state is unchanged and the error propagates to the caller. -/
theorem c7_negative_cache_write_only (st : CacheState)
    (now now2 : Int) (key : String) (ttl ttl2 : Int)
    (f2 : Except Unit (Option LiveRecord))
    (hmiss : csGet st now key = none) :
    (getOrSet st now key (.ok none) ttl).result = .ok none ∧
    (getOrSet st now key (.ok none) ttl).state = csSet st now key none ttl ∧
    csGet (csSet st now key none ttl) now2 key = none ∧
    (getOrSet (csSet st now key none ttl) now2 key f2 ttl2).fetchCalls = 1 ∧
    (getOrSet st now key (.error ()) ttl).result = .error () ∧
    (getOrSet st now key (.error ()) ttl).state = st := by
  have hnull : csGet (csSet st now key none ttl) now2 key = none := by
    by_cases hfresh : now2 < now + ttl * 1000
    · simp [csGet, ncGet, csSet, List.find?, hfresh]
    · simp [csGet, ncGet, csSet, List.find?, hfresh]
  refine ⟨?_, ?_, hnull, ?_, ?_, ?_⟩
  · simp [getOrSet, hmiss]
  · simp [getOrSet, hmiss]
  · cases f2 <;> simp [getOrSet, hnull]
  · simp [getOrSet, hmiss]
  · simp [getOrSet, hmiss]

/-- C7 witness: empty cache, 300 s TTL, second read at t = 10 ms. -/
theorem c7_negative_cache_write_only_witness :
    (getOrSet [] 0 "k" (.ok none) 300).result = .ok none ∧
    (getOrSet [] 0 "k" (.ok none) 300).state = csSet [] 0 "k" none 300 ∧
    csGet (csSet [] 0 "k" none 300) 10 "k" = none ∧
    (getOrSet (csSet [] 0 "k" none 300) 10 "k" (.ok none) 300).fetchCalls = 1 ∧
    (getOrSet [] 0 "k" (.error ()) 300).result = .error () ∧
    (getOrSet [] 0 "k" (.error ()) 300).state = [] :=
  c7_negative_cache_write_only [] 0 10 "k" 300 300 (.ok none) rfl

theorem videoErrors_empty_iff (v : String) :
    validateVideoIdErrors v = [] ↔ videoIdMatches v = true := by
  unfold validateVideoIdErrors videoIdMatches
  by_cases hlen : v.data.length = 11 <;> by_cases hall : v.data.all isIdChar <;>
    simp [hlen, hall]

theorem channelErrors_empty_iff (c : String) :
    validateChannelIdErrors c = [] ↔ channelIdMatches c = true := by
  unfold validateChannelIdErrors channelIdMatches
  by_cases hlen : c.data.length = 24 <;>
    by_cases hpre : c.data.take 2 = ['U', 'C'] <;>
    by_cases hall : (c.data.drop 2).all isIdChar <;>
    simp [hlen, hpre, hall]

/-- **C8.** A `:videoId` request whose parameter is not exactly 11
characters of `[A-Za-z0-9_-]`, or a `:channelId` request whose
parameter is not exactly 24 characters starting with `UC` followed by
22 such characters, is rejected by the validation middleware with a
400 validation response before the route handler runs — no adapter or
resolution call is made; conforming identifiers pass validation and
reach the handler.  In particular a 10-character video id is rejected. -/
theorem c8_validation_gate :
    (∀ v : String, runVideoRoute v = .rejected 400 ↔ videoIdMatches v = false) ∧
    (∀ v : String,
      runVideoRoute v = .reachedHandler ↔ videoIdMatches v = true) ∧
    (∀ c : String,
      runChannelRoute c = .rejected 400 ↔ channelIdMatches c = false) ∧
    (∀ c : String,
      runChannelRoute c = .reachedHandler ↔ channelIdMatches c = true) ∧
    runVideoRoute "abcde12345" = .rejected 400 ∧
    runVideoRoute "dQw4w9WgXcQ" = .reachedHandler ∧
    runChannelRoute "UCuAXFkgsw1L7xaCfnd5JJOw" = .reachedHandler ∧
    runChannelRoute "UCuAXFkgsw1L7xaCfnd5JJO" = .rejected 400 := by
  have hv : ∀ v : String,
      runVideoRoute v =
        (if videoIdMatches v then PipelineOutcome.reachedHandler
         else PipelineOutcome.rejected 400) := by
    intro v
    unfold runVideoRoute handleValidationOutcome
    by_cases hm : videoIdMatches v
    · have he : validateVideoIdErrors v = [] := (videoErrors_empty_iff v).mpr hm
      simp [he, hm]
    · have he : ¬ validateVideoIdErrors v = [] :=
        fun h => hm ((videoErrors_empty_iff v).mp h)
      simp [List.isEmpty_iff, he, hm]
  have hcR : ∀ c : String,
      runChannelRoute c =
        (if channelIdMatches c then PipelineOutcome.reachedHandler
         else PipelineOutcome.rejected 400) := by
    intro c
    unfold runChannelRoute handleValidationOutcome
    by_cases hm : channelIdMatches c
    · have he : validateChannelIdErrors c = [] :=
        (channelErrors_empty_iff c).mpr hm
      simp [he, hm]
    · have he : ¬ validateChannelIdErrors c = [] :=
        fun h => hm ((channelErrors_empty_iff c).mp h)
      simp [List.isEmpty_iff, he, hm]
  refine ⟨?_, ?_, ?_, ?_, ?_, ?_, ?_, ?_⟩
  · intro v
    rw [hv v]
    by_cases hm : videoIdMatches v <;> simp [hm]
  · intro v
    rw [hv v]
    by_cases hm : videoIdMatches v <;> simp [hm]
  · intro c
    rw [hcR c]
    by_cases hm : channelIdMatches c <;> simp [hm]
  · intro c
    rw [hcR c]
    by_cases hm : channelIdMatches c <;> simp [hm]
  · rw [hv _]
    decide
  · rw [hv _]
    decide
  · rw [hcR _]
    decide
  · rw [hcR _]
    decide

/-- **C9 (counterexample).** The basic InnerTube normalizer with an
absent `view_count` produces a record whose `concurrentViewers` is
null yet whose viewer-count tag is the concrete
`total_stream_views` — not `unknown` as the invariant demands. -/
theorem c9_counterexample :
    (innertubeGetVideoInfo "dQw4w9WgXcQ" 0 infoC9).concurrentViewers =
      none ∧
    (innertubeGetVideoInfo "dQw4w9WgXcQ" 0 infoC9).viewerCountType =
      some "total_stream_views" ∧
    (innertubeGetVideoInfo "dQw4w9WgXcQ" 0 infoC9).viewerCountType ≠
      some "unknown" :=
  ⟨rfl, rfl, by decide⟩

/-- **C9 (amended).** `concurrentViewers` is always null or a
non-negative count (it is an `Option Nat` by construction), but when
it is null the viewer-count tag is *not* `unknown`: the basic
normalizer still tags `total_stream_views`, and the enhanced variant
tags `total_stream_views` (live) or `total_views` (not live) — its
`unknown` initialiser is overwritten on every path. -/
theorem c9_null_viewers_concrete_tag
    (vid1 : String) (now1 : Int) (info1 : InnerTubeInfo)
    (vid2 : String) (now2 : Int) (info2 : EnhancedInfo)
    (h1 : (innertubeGetVideoInfo vid1 now1 info1).concurrentViewers = none)
    (h2 : (enhancedGetVideoInfo vid2 now2 info2).concurrentViewers = none) :
    (innertubeGetVideoInfo vid1 now1 info1).viewerCountType =
      some "total_stream_views" ∧
    ((enhancedGetVideoInfo vid2 now2 info2).viewerCountType =
        some "total_stream_views" ∨
     (enhancedGetVideoInfo vid2 now2 info2).viewerCountType =
        some "total_views") ∧
    (enhancedGetVideoInfo vid2 now2 info2).viewerCountType ≠
      some "unknown" := by
  refine ⟨rfl, ?_, ?_⟩
  · unfold enhancedGetVideoInfo at h2 ⊢
    by_cases hl : info2.is_live.getD false = true
    · simp only [hl] at h2 ⊢
      simp at h2
      simp [h2]
    · simp only [Bool.not_eq_true] at hl
      simp only [hl] at h2 ⊢
      simp
  · have hne1 : ("concurrent_viewers" : String) ≠ "unknown" := by decide
    have hne2 : ("total_stream_views" : String) ≠ "unknown" := by decide
    have hne3 : ("total_views" : String) ≠ "unknown" := by decide
    unfold enhancedGetVideoInfo
    by_cases hl : info2.is_live.getD false = true
    · simp only [hl]
      by_cases hcv :
          (jsNumOr info2.watching_count
            (jsNumOr info2.microformatConcurrentViewers
              (jsNumOrNull info2.streamingConcurrentViewers))).isSome = true <;>
        simp [hcv, hne1, hne2]
    · simp only [Bool.not_eq_true] at hl
      simp only [hl]
      simp [hne3]

/-- C9 witness: both normalizers applied to raw info with every
viewer-count source absent. -/
theorem c9_null_viewers_concrete_tag_witness :
    (innertubeGetVideoInfo "dQw4w9WgXcQ" 0 infoC9).viewerCountType =
      some "total_stream_views" ∧
    ((enhancedGetVideoInfo "dQw4w9WgXcQ" 0 {}).viewerCountType =
        some "total_stream_views" ∨
     (enhancedGetVideoInfo "dQw4w9WgXcQ" 0 {}).viewerCountType =
        some "total_views") ∧
    (enhancedGetVideoInfo "dQw4w9WgXcQ" 0 {}).viewerCountType ≠
      some "unknown" :=
  c9_null_viewers_concrete_tag "dQw4w9WgXcQ" 0 infoC9 "dQw4w9WgXcQ" 0 {}
    rfl rfl
